import Mathlib

/-!
Verification of the multi-user todo service (FastAPI + SQLModel app).

Shallow embedding conventions:
* UUIDs are modelled as natural numbers; parsing a UUID string
  (Python: UUID(s), raising ValueError on bad input) is modelled by
  the decimal parser parseUUID (none = ValueError).
* Timestamps (datetime / time.time()) are modelled as integers
  (seconds); datetime comparison is integer comparison.
* The database todos table is a List Todo; SELECT ... WHERE id = _ AND
  user_id = _ with scalar_one_or_none is List.find? (the table has a
  unique primary key, so first-match semantics coincide); deleting the
  found row is List.eraseP; mutating the found row and committing is
  replaceFirst.
* The JWT signature (python-jose HS256) is idealized as an
  unforgeable MAC: the mac field of a token records the pair
  (signing key, signed payload); verification checks that the mac
  equals (configured secret, the token payload carried).  Tampering
  with the payload or signing under a different key makes the check
  fail, exactly as an ideal MAC would.
* python-jose jwt.decode validates the exp claim when present with
  exp < now (strict), default leeway 0; this is embedded literally.
* Raising HTTPException(status, detail) is modelled by the err
  constructor of RouteResult / by Except.error.
-/

namespace TodoApp

/-- UUIDs (user ids, todo ids) modelled as naturals. -/
abbrev UUID := Nat

/-- Python UUID(s): parse a UUID string, None modelling the ValueError
raised on malformed input.  UUIDs being naturals here, the parser
accepts exactly the nonempty all-digit strings. -/
def parseUUID (s : String) : Option UUID :=
  if s.data ≠ [] ∧ s.data.all Char.isDigit then
    some (s.data.foldl (fun n c => 10 * n + (c.toNat - 48)) 0)
  else none

/-- app/models/todo.py is not under src/. Modelled from the spec:
"Todo: identifier, owning user identifier, title, description
(optional), completed flag (boolean, default false), created/updated
timestamps." -/
structure Todo where
  id : UUID
  user_id : UUID
  title : String
  description : Option String
  completed : Bool
  created_at : Int
  updated_at : Int
  deriving Repr, DecidableEq

/-- Schema TodoCreate (src/todo.py): title required, description optional. -/
structure TodoCreate where
  title : String
  description : Option String
  deriving Repr, DecidableEq

/-- Schema TodoUpdate (src/todo.py): both fields optional (None = omitted). -/
structure TodoUpdate where
  title : Option String
  description : Option String
  deriving Repr, DecidableEq

/-- Result of a FastAPI route: success_response(data, message) or
HTTPException(status_code, detail=error_response(code, message)). -/
inductive RouteResult (α : Type) where
  | ok (data : α) (message : String)
  | err (statusCode : Nat) (code : String) (message : String)
  deriving Repr, DecidableEq

/-- SELECT Todo WHERE Todo.id == id AND Todo.user_id == user_id,
scalar_one_or_none (src/todos.py, src/todo_tools.py). -/
def todoPred (id user_id : UUID) (t : Todo) : Bool :=
  t.id == id && t.user_id == user_id

/-- Ownership-filtered single-row lookup used by every single-resource
operation. -/
def findTodo (db : List Todo) (id user_id : UUID) : Option Todo :=
  db.find? (todoPred id user_id)

/-- Mutating the row found by scalar_one_or_none and committing:
replace the first row satisfying p. -/
def replaceFirst (db : List Todo) (p : Todo → Bool) (t' : Todo) : List Todo :=
  match db with
  | [] => []
  | x :: xs => if p x then t' :: xs else x :: replaceFirst xs p t'

/-- Python update idiom "if v is not None: row.f = v" for an optional
column: a supplied value replaces, an omitted one keeps the old value. -/
def orKeep (new old : Option String) : Option String :=
  match new with
  | some d => some d
  | none => old

/-- ORDER BY created_at DESC comparator. -/
def descByCreated (a b : Todo) : Bool :=
  decide (b.created_at ≤ a.created_at)

/- ---------------------------------------------------------------
REST routes, src/todos.py.  Each route receives the authenticated
user (current_user_id, from the get_current_user dependency), the
path parameters, the body, the clock, and the todos table; it returns
the response and the table after the request.
--------------------------------------------------------------- -/

/-- POST /users/{user_id}/todos (src/todos.py create_todo).  The new
row id and the clock are passed explicitly; completed defaults to
false and both timestamps to now (defaults of the ORM model,
modelled from the spec: "completed defaults false; timestamps set to
now"). -/
def create_todo (current_user_id user_id : UUID) (todo_data : TodoCreate)
    (new_id : UUID) (now : Int) (db : List Todo) :
    RouteResult Todo × List Todo :=
  if current_user_id ≠ user_id then
    (.err 403 "FORBIDDEN" "You can only create todos for yourself", db)
  else
    let new_todo : Todo :=
      { id := new_id, user_id := current_user_id,
        title := todo_data.title, description := todo_data.description,
        completed := false, created_at := now, updated_at := now }
    (.ok new_todo "Todo created successfully", db ++ [new_todo])

/-- GET /users/{user_id}/todos (src/todos.py list_todos): todos of the
authenticated user, ORDER BY created_at DESC. -/
def list_todos (current_user_id user_id : UUID) (db : List Todo) :
    RouteResult (List Todo) :=
  if current_user_id ≠ user_id then
    .err 403 "FORBIDDEN" "You can only access your own todos"
  else
    .ok ((db.filter (fun t => t.user_id == current_user_id)).mergeSort descByCreated)
      "Todos retrieved successfully"

/-- GET /users/{user_id}/todos/{id} (src/todos.py get_todo). -/
def get_todo (current_user_id user_id id : UUID) (db : List Todo) :
    RouteResult Todo :=
  if current_user_id ≠ user_id then
    .err 403 "FORBIDDEN" "You can only access your own todos"
  else
    match findTodo db id current_user_id with
    | none =>
        .err 404 "NOT_FOUND"
          "Todo not found or you don\x27t have permission to access it"
    | some todo => .ok todo "Todo retrieved successfully"

/-- PUT /users/{user_id}/todos/{id} (src/todos.py update_todo):
partial update of title/description, updated_at := utcnow(). -/
def update_todo (current_user_id user_id id : UUID) (todo_data : TodoUpdate)
    (now : Int) (db : List Todo) : RouteResult Todo × List Todo :=
  if current_user_id ≠ user_id then
    (.err 403 "FORBIDDEN" "You can only update your own todos", db)
  else
    match findTodo db id current_user_id with
    | none =>
        (.err 404 "NOT_FOUND"
          "Todo not found or you don\x27t have permission to update it", db)
    | some todo =>
        let todo' : Todo :=
          { todo with
            title := todo_data.title.getD todo.title,
            description := orKeep todo_data.description todo.description,
            updated_at := now }
        (.ok todo' "Todo updated successfully",
         replaceFirst db (todoPred id current_user_id) todo')

/-- PATCH /users/{user_id}/todos/{id}/complete (src/todos.py
toggle_todo_completion): completed := not completed, updated_at := utcnow(). -/
def toggle_todo_completion (current_user_id user_id id : UUID)
    (now : Int) (db : List Todo) : RouteResult Todo × List Todo :=
  if current_user_id ≠ user_id then
    (.err 403 "FORBIDDEN" "You can only update your own todos", db)
  else
    match findTodo db id current_user_id with
    | none =>
        (.err 404 "NOT_FOUND"
          "Todo not found or you don\x27t have permission to update it", db)
    | some todo =>
        let todo' : Todo :=
          { todo with completed := !todo.completed, updated_at := now }
        (.ok todo' "Todo completion status updated",
         replaceFirst db (todoPred id current_user_id) todo')

/-- DELETE /users/{user_id}/todos/{id} (src/todos.py delete_todo). -/
def delete_todo (current_user_id user_id id : UUID) (db : List Todo) :
    RouteResult Unit × List Todo :=
  if current_user_id ≠ user_id then
    (.err 403 "FORBIDDEN" "You can only delete your own todos", db)
  else
    match findTodo db id current_user_id with
    | none =>
        (.err 404 "NOT_FOUND"
          "Todo not found or you don\x27t have permission to delete it", db)
    | some _ =>
        (.ok () "Todo deleted successfully",
         db.eraseP (todoPred id current_user_id))

/- ---------------------------------------------------------------
JWT token service, src/jwt.py + src/config.py.
--------------------------------------------------------------- -/

/-- The settings fields used by the token service (src/config.py). -/
structure Settings where
  JWT_SECRET : Nat
  JWT_ALGORITHM : String
  JWT_EXPIRATION_HOURS : Nat
  deriving Repr, DecidableEq

/-- Claims of a JWT payload; each claim may be absent
(dict.get returns None). -/
structure JwtPayload where
  sub : Option String
  email : Option String
  exp : Option Int
  iat : Option Int
  deriving Repr, DecidableEq

/-- A signed token: header algorithm, payload, and the idealized MAC
(the key and payload the producer actually signed). -/
structure Token where
  alg : String
  payload : JwtPayload
  mac : Nat × JwtPayload
  deriving Repr, DecidableEq

/-- create_access_token (src/jwt.py): sub := str(user_id), email,
exp := now + JWT_EXPIRATION_HOURS, iat := now; signed with
settings.JWT_SECRET under settings.JWT_ALGORITHM. -/
def create_access_token (s : Settings) (user_id : UUID) (email : String)
    (now : Int) : Token :=
  let expire : Int := now + (s.JWT_EXPIRATION_HOURS : Int) * 3600
  let to_encode : JwtPayload :=
    { sub := some (toString user_id), email := some email,
      exp := some expire, iat := some now }
  { alg := s.JWT_ALGORITHM, payload := to_encode,
    mac := (s.JWT_SECRET, to_encode) }

/-- verify_token (src/jwt.py): jose jwt.decode with
algorithms=[settings.JWT_ALGORITHM] and key settings.JWT_SECRET;
jose checks the header algorithm, the signature, and, when an exp
claim is present, rejects when exp < now (strict, zero leeway).
Any JWTError is caught and None returned. -/
def verify_token (s : Settings) (token : Token) (now : Int) :
    Option JwtPayload :=
  if token.alg = s.JWT_ALGORITHM ∧ token.mac = (s.JWT_SECRET, token.payload) then
    match token.payload.exp with
    | some e => if e < now then none else some token.payload
    | none => some token.payload
  else none

/- ---------------------------------------------------------------
Auth dependencies: src/middleware.py and src/dependencies.py.
--------------------------------------------------------------- -/

/-- Error message constants (src/constants.py). -/
def INVALID_TOKEN_ERROR : String := "Invalid token"

/-- Error message constant (src/constants.py). -/
def TOKEN_EXPIRED_ERROR : String := "Token has expired"

/-- Python truthiness of an optional string: None and the empty
string are falsy. -/
def pyTruthy : Option String → Bool
  | none => false
  | some s => !(s == "")

/-- get_current_user (src/middleware.py): verify the token, re-check
payload.get(exp, 0) against time.time(), require truthy sub and
email, and return the (user_id, email) pair of the token.  An
HTTPException(401, msg) is the error case. -/
def middleware_get_current_user (s : Settings) (token : Token)
    (now : Int) : Except (Nat × String) (String × String) :=
  match verify_token s token now with
  | none => .error (401, INVALID_TOKEN_ERROR)
  | some payload =>
    if payload.exp.getD 0 < now then
      .error (401, TOKEN_EXPIRED_ERROR)
    else
      if !(pyTruthy payload.sub) || !(pyTruthy payload.email) then
        .error (401, INVALID_TOKEN_ERROR)
      else
        .ok (payload.sub.getD "", payload.email.getD "")

/-- User row (app/models/user.py is not under src/; id and email are
the fields the slice reads. Modelled from the spec: "User:
identifier (opaque unique id), email"). -/
structure User where
  id : UUID
  email : String
  deriving Repr, DecidableEq

/-- get_current_user (src/dependencies.py): verify the token, require
a sub claim, parse it as a UUID (ValueError is 401), and load the
user by id; each failure is HTTPException(401, msg). -/
def deps_get_current_user (s : Settings) (token : Token) (now : Int)
    (users : List User) : Except (Nat × String) User :=
  match verify_token s token now with
  | none => .error (401, "Invalid or expired token")
  | some payload =>
    match payload.sub with
    | none => .error (401, "Invalid token payload")
    | some user_id_str =>
      match parseUUID user_id_str with
      | none => .error (401, "Invalid user ID in token")
      | some user_id =>
        match users.find? (fun u => u.id == user_id) with
        | none => .error (401, "User not found")
        | some user => .ok user

/- ---------------------------------------------------------------
Chat endpoint, src/chat.py.  chat_service.process_message is not
under src/, so the route is parameterized by it: it consumes the
optional parsed conversation id and a state (the database world) and
returns either success (conversation_id, response text) or a failure
message, with the possibly-changed state.
--------------------------------------------------------------- -/

/-- Outcome of chat_service.process_message as consumed by the route:
a success/error dict. -/
inductive ChatServiceResult where
  | success (conversation_id : String) (response : String)
  | failure (error : String)
  deriving Repr, DecidableEq

/-- Classification of a process_message failure in the route: 404 when
the lowercased message mentions "not found" or "access denied",
500 otherwise (src/chat.py). -/
def chatErrorStatus (msg : String) : Nat × String :=
  if (msg.toLower.splitOn "not found").length > 1
      || (msg.toLower.splitOn "access denied").length > 1 then
    (404, "NOT_FOUND")
  else
    (500, "INTERNAL_ERROR")

/-- POST /{user_id}/chat (src/chat.py chat): ownership check, then
conversation_id parse (400 on ValueError), then process_message,
whose failure is re-raised as 404/500 and whose success is the
response payload. -/
def chat {σ : Type} (process_message : Option UUID → σ → ChatServiceResult × σ)
    (current_user_id user_id : UUID) (conversation_id : Option String)
    (st : σ) : RouteResult (String × String) × σ :=
  if current_user_id ≠ user_id then
    (.err 403 "FORBIDDEN"
      "You don\x27t have permission to access this user\x27s chat", st)
  else
    let run : Option UUID → RouteResult (String × String) × σ := fun conv =>
      match process_message conv st with
      | (.success cid resp, st') =>
          (.ok (cid, resp) "Message processed successfully", st')
      | (.failure msg, st') =>
          let sc := chatErrorStatus msg
          (.err sc.1 sc.2 msg, st')
    match conversation_id with
    | some cs =>
      match parseUUID cs with
      | none =>
          (.err 400 "INVALID_INPUT" "Invalid conversation ID format", st)
      | some cid => run (some cid)
    | none => run none

/- ---------------------------------------------------------------
Chat tool handlers, src/todo_tools.py.  The session carries the
todos table and a flag making the next database operation raise
(the "unexpected persistence error" the handlers catch).
--------------------------------------------------------------- -/

/-- Database session for the tool handlers. -/
structure Session where
  db : List Todo
  failing : Bool
  deriving Repr, DecidableEq

/-- session.execute of a SELECT: raises when the database is failing. -/
def Session.execSelect (sess : Session) (p : Todo → Bool) :
    Except String (List Todo) :=
  if sess.failing then .error "database failure" else .ok (sess.db.filter p)

/-- session.execute of a single-row SELECT followed by
scalar_one_or_none: raises when the database is failing. -/
def Session.scalarOneOrNone (sess : Session) (p : Todo → Bool) :
    Except String (Option Todo) :=
  if sess.failing then .error "database failure" else .ok (sess.db.find? p)

/-- session.commit of a new table state: raises when the database is
failing. -/
def Session.commitDb (sess : Session) (db' : List Todo) :
    Except String Session :=
  if sess.failing then .error "database failure"
  else .ok { sess with db := db' }

/-- Result dict of a tool handler: success true with a payload, or
success false with an error string. -/
inductive ToolResult (α : Type) where
  | ok (payload : α)
  | err (error : String)
  deriving Repr, DecidableEq

/-- The success key every handler result dict carries. -/
def ToolResult.success {α : Type} : ToolResult α → Bool
  | .ok _ => true
  | .err _ => false

/-- create_todo_handler (src/todo_tools.py): insert a todo owned by
user_id with completed := False; any exception becomes
success false.  Row id and clock passed explicitly (ORM defaults). -/
def create_todo_handler (sess : Session) (user_id : UUID) (title : String)
    (description : Option String) (new_id : UUID) (now : Int) :
    ToolResult Todo × Session :=
  let todo : Todo :=
    { id := new_id, user_id := user_id, title := title,
      description := description, completed := false,
      created_at := now, updated_at := now }
  match sess.commitDb (sess.db ++ [todo]) with
  | .ok sess' => (.ok todo, sess')
  | .error e => (.err ("Failed to create todo: " ++ e), sess)

/-- list_todos_handler (src/todo_tools.py): todos of user_id, with an
optional equality filter on completed, ORDER BY created_at DESC;
any exception becomes success false. -/
def list_todos_handler (sess : Session) (user_id : UUID)
    (completed : Option Bool) : ToolResult (List Todo) × Session :=
  match sess.execSelect (fun t =>
      t.user_id == user_id &&
      (match completed with
       | some c => t.completed == c
       | none => true)) with
  | .error e => (.err ("Failed to list todos: " ++ e), sess)
  | .ok todos => (.ok (todos.mergeSort descByCreated), sess)

/-- update_todo_handler (src/todo_tools.py): UUID(todo_id) (ValueError
is the invalid-format error), owner-filtered lookup (None is the
not-found error), partial update of title/description/completed,
commit.  The updated_at refresh is modelled from the spec
("updated timestamp is refreshed to now on any successful update";
the ORM model carrying it is not under src/). -/
def update_todo_handler (sess : Session) (user_id : UUID) (todo_id : String)
    (title description : Option String) (completed : Option Bool)
    (now : Int) : ToolResult Todo × Session :=
  match parseUUID todo_id with
  | none => (.err "Invalid todo ID format", sess)
  | some tid =>
    match sess.scalarOneOrNone (todoPred tid user_id) with
    | .error e => (.err ("Failed to update todo: " ++ e), sess)
    | .ok none =>
        (.err "Todo not found or you don\x27t have permission to update it",
         sess)
    | .ok (some todo) =>
        let todo' : Todo :=
          { todo with
            title := title.getD todo.title,
            description := orKeep description todo.description,
            completed := completed.getD todo.completed,
            updated_at := now }
        match sess.commitDb (replaceFirst sess.db (todoPred tid user_id) todo') with
        | .ok sess' => (.ok todo', sess')
        | .error e => (.err ("Failed to update todo: " ++ e), sess)

/-- delete_todo_handler (src/todo_tools.py): UUID(todo_id),
owner-filtered lookup, delete, commit; the success payload is the
confirmation message. -/
def delete_todo_handler (sess : Session) (user_id : UUID) (todo_id : String) :
    ToolResult String × Session :=
  match parseUUID todo_id with
  | none => (.err "Invalid todo ID format", sess)
  | some tid =>
    match sess.scalarOneOrNone (todoPred tid user_id) with
    | .error e => (.err ("Failed to delete todo: " ++ e), sess)
    | .ok none =>
        (.err "Todo not found or you don\x27t have permission to delete it",
         sess)
    | .ok (some todo) =>
        match sess.commitDb (sess.db.eraseP (todoPred tid user_id)) with
        | .ok sess' =>
            (.ok ("Todo \x27" ++ todo.title ++ "\x27 deleted successfully"),
             sess')
        | .error e => (.err ("Failed to delete todo: " ++ e), sess)

/-- get_todo_handler (src/todo_tools.py): UUID(todo_id),
owner-filtered lookup, no mutation. -/
def get_todo_handler (sess : Session) (user_id : UUID) (todo_id : String) :
    ToolResult Todo × Session :=
  match parseUUID todo_id with
  | none => (.err "Invalid todo ID format", sess)
  | some tid =>
    match sess.scalarOneOrNone (todoPred tid user_id) with
    | .error e => (.err ("Failed to get todo: " ++ e), sess)
    | .ok none =>
        (.err "Todo not found or you don\x27t have permission to view it",
         sess)
    | .ok (some todo) => (.ok todo, sess)

/- ---------------------------------------------------------------
Password validation, src/auth.py and src/utils.py.
--------------------------------------------------------------- -/

/-- Python any(c.isupper() for c in v). -/
def pyAnyUpper (s : String) : Bool := s.data.any Char.isUpper

/-- Python any(c.islower() for c in v). -/
def pyAnyLower (s : String) : Bool := s.data.any Char.isLower

/-- Python any(c.isdigit() for c in v). -/
def pyAnyDigit (s : String) : Bool := s.data.any Char.isDigit

/-- UserCreate.validate_password (src/auth.py): pydantic field
validator; raising ValueError is the error case, returning v the
acceptance. -/
def validate_password (v : String) : Except String String :=
  if v.length < 8 then
    .error "Password must be at least 8 characters long"
  else if !(pyAnyUpper v) then
    .error "Password must contain at least one uppercase letter"
  else if !(pyAnyLower v) then
    .error "Password must contain at least one lowercase letter"
  else if !(pyAnyDigit v) then
    .error "Password must contain at least one digit"
  else
    .ok v

/-- Whether the UserCreate field validator accepts a password. -/
def acceptsPassword (p : String) : Bool :=
  match validate_password p with
  | .ok _ => true
  | .error _ => false

/-- is_valid_password (src/utils.py): length in [8, 128] and at least
one uppercase, one lowercase, one digit. -/
def is_valid_password (password : String) : Bool :=
  if password.length < 8 || 128 < password.length then false
  else pyAnyUpper password && pyAnyLower password && pyAnyDigit password

/-- The sequence the list_todos route returns for a user: the rows of
that owner, ORDER BY created_at DESC. -/
def listedTodos (uid : UUID) (db : List Todo) : List Todo :=
  (db.filter (fun t => t.user_id == uid)).mergeSort descByCreated

/-- The sequence the list_todos tool handler returns: the rows of that
owner, optionally filtered by completed, ORDER BY created_at DESC. -/
def listedTodosFiltered (uid : UUID) (completed : Option Bool)
    (db : List Todo) : List Todo :=
  (db.filter (fun t =>
    t.user_id == uid &&
    (match completed with
     | some c => t.completed == c
     | none => true))).mergeSort descByCreated

/- ---------------------------------------------------------------
Concrete sample values for witnesses and counterexamples.
--------------------------------------------------------------- -/

/-- Sample settings: secret 1, HS256, 24-hour expiry (the defaults of
src/config.py). -/
def sampleSettings : Settings := ⟨1, "HS256", 24⟩

/-- Sample todo owned by user 10. -/
def sampleTodoA : Todo := ⟨1, 10, "a", none, false, 5, 5⟩

/-- Second sample todo owned by user 10, completed, created later. -/
def sampleTodoB : Todo := ⟨2, 10, "b", none, true, 9, 9⟩

/-- Sample todo owned by user 11. -/
def sampleTodoC : Todo := ⟨3, 11, "c", none, false, 7, 7⟩

/-- Sample todos table with two users. -/
def sampleDb : List Todo := [sampleTodoA, sampleTodoB, sampleTodoC]

/-- Payload with a valid subject but no email claim. -/
def noEmailPayload : JwtPayload := ⟨some "7", none, some 200, some 0⟩

/-- Correctly signed token (under sampleSettings) whose payload has no
email claim. -/
def noEmailToken : Token := ⟨"HS256", noEmailPayload, (1, noEmailPayload)⟩

/-- Payload with an email claim but no subject. -/
def noSubPayload : JwtPayload := ⟨none, some "ab", some 200, some 0⟩

/-- Correctly signed token (under sampleSettings) whose payload has no
subject claim. -/
def noSubToken : Token := ⟨"HS256", noSubPayload, (1, noSubPayload)⟩

/-- A 129-character password containing an uppercase letter, a
lowercase letter and a digit. -/
def longPassword : String :=
  String.mk (Char.ofNat 65 :: Char.ofNat 97 :: Char.ofNat 49 :: List.replicate 126 (Char.ofNat 97))

/- ---------------------------------------------------------------
Helper lemmas.
--------------------------------------------------------------- -/

/-- A correctly signed unexpired token decodes to its payload. -/
lemma verify_token_issued (s : Settings) (uid : UUID) (email : String)
    (t0 t : Int) (h : ¬ t0 + (s.JWT_EXPIRATION_HOURS : Int) * 3600 < t) :
    verify_token s (create_access_token s uid email t0) t =
      some (create_access_token s uid email t0).payload := by
  simp [verify_token, create_access_token, h]

/-- A token whose exp claim is strictly in the past never decodes. -/
lemma verify_token_expired (s : Settings) (tok : Token) (t e : Int)
    (he : tok.payload.exp = some e) (hlt : e < t) :
    verify_token s tok t = none := by
  by_cases hc : tok.alg = s.JWT_ALGORITHM ∧ tok.mac = (s.JWT_SECRET, tok.payload)
  · simp only [verify_token]
    rw [if_pos hc, he]
    simp [hlt]
  · simp only [verify_token]
    rw [if_neg hc]

/-- A token whose mac is not the configured secret over its own payload
(a tampered payload, or a foreign signing key) never decodes. -/
lemma verify_token_bad_mac (s : Settings) (tok : Token) (t : Int)
    (h : tok.mac ≠ (s.JWT_SECRET, tok.payload)) :
    verify_token s tok t = none := by
  simp only [verify_token]
  rw [if_neg (fun hc => h hc.2)]

/-- If a row matching p exists, replacing the first matching row by a
row that still matches makes it the row the next lookup finds. -/
lemma find?_replaceFirst (db : List Todo) (p : Todo → Bool) (t' : Todo)
    (hp : p t' = true) (h : (db.find? p).isSome = true) :
    (replaceFirst db p t').find? p = some t' := by
  induction db with
  | nil => simp [List.find?] at h
  | cons x xs ih =>
    by_cases hx : p x = true
    · rw [show replaceFirst (x :: xs) p t' = t' :: xs from by
        simp [replaceFirst, hx]]
      exact List.find?_cons_of_pos _ hp
    · rw [show replaceFirst (x :: xs) p t' = x :: replaceFirst xs p t' from by
        simp [replaceFirst, hx]]
      rw [List.find?_cons_of_neg _ hx]
      apply ih
      rwa [List.find?_cons_of_neg _ hx] at h

/-- When no row has the given id owned by the given user, the
owner-filtered lookup is empty. -/
lemma findTodo_eq_none (db : List Todo) (tid uid : UUID)
    (h : ∀ t ∈ db, t.id = tid → t.user_id ≠ uid) :
    findTodo db tid uid = none := by
  simp only [findTodo, List.find?_eq_none, todoPred]
  intro t ht
  simp only [Bool.and_eq_true, beq_iff_eq, not_and]
  exact fun h1 h2 => h t ht h1 h2

/-- The descending-creation-time comparator is transitive. -/
lemma descByCreated_trans (a b c : Todo) :
    descByCreated a b → descByCreated b c → descByCreated a c := by
  simp only [descByCreated, decide_eq_true_eq]
  intro h1 h2
  omega

/-- The descending-creation-time comparator is total. -/
lemma descByCreated_total (a b : Todo) :
    descByCreated a b || descByCreated b a := by
  simp only [descByCreated]
  rcases Int.le_total a.created_at b.created_at with h | h <;> simp [h]

/- ---------------------------------------------------------------
Claim theorems.
--------------------------------------------------------------- -/

/-- C1: for an authenticated user and a todo id that is missing or
owned by another user, every single-resource operation (get, update,
toggle-complete, delete; REST routes and chat tool handlers) returns
the one NotFound result of that operation (identical in the missing
and not-owned cases, both being covered by the same hypothesis), the
table is unchanged, and no todo data appears in the result. -/
theorem singleResource_notFound_uniform
    (db : List Todo) (uid tid : UUID) (upd : TodoUpdate) (now : Int)
    (ts : String) (t? d? : Option String) (c? : Option Bool)
    (hts : parseUUID ts = some tid)
    (h : ∀ t ∈ db, t.id = tid → t.user_id ≠ uid) :
    get_todo uid uid tid db =
      .err 404 "NOT_FOUND"
        "Todo not found or you don\x27t have permission to access it" ∧
    update_todo uid uid tid upd now db =
      (.err 404 "NOT_FOUND"
        "Todo not found or you don\x27t have permission to update it", db) ∧
    toggle_todo_completion uid uid tid now db =
      (.err 404 "NOT_FOUND"
        "Todo not found or you don\x27t have permission to update it", db) ∧
    delete_todo uid uid tid db =
      (.err 404 "NOT_FOUND"
        "Todo not found or you don\x27t have permission to delete it", db) ∧
    get_todo_handler ⟨db, false⟩ uid ts =
      (.err "Todo not found or you don\x27t have permission to view it",
       ⟨db, false⟩) ∧
    update_todo_handler ⟨db, false⟩ uid ts t? d? c? now =
      (.err "Todo not found or you don\x27t have permission to update it",
       ⟨db, false⟩) ∧
    delete_todo_handler ⟨db, false⟩ uid ts =
      (.err "Todo not found or you don\x27t have permission to delete it",
       ⟨db, false⟩) := by
  have hfind : findTodo db tid uid = none := findTodo_eq_none db tid uid h
  have hfind' : db.find? (todoPred tid uid) = none := hfind
  refine ⟨?_, ?_, ?_, ?_, ?_, ?_, ?_⟩ <;>
    simp [get_todo, update_todo, toggle_todo_completion, delete_todo,
      get_todo_handler, update_todo_handler, delete_todo_handler,
      findTodo, Session.scalarOneOrNone, hts, hfind, hfind']

/-- C1 witness at a concrete input: todo 3 exists in sampleDb but is
owned by user 11, and user 10 gets the uniform NotFound. -/
theorem singleResource_notFound_uniform_witness :
    get_todo 10 10 3 sampleDb =
      .err 404 "NOT_FOUND"
        "Todo not found or you don\x27t have permission to access it" :=
  (singleResource_notFound_uniform sampleDb 10 3 ⟨none, none⟩ 6 "3"
    none none none (by decide) (by decide)).1

/-- C2: whenever the authenticated user differs from the user_id in
the request path, every todo route and the chat route fail with the
403 Forbidden error carrying a generic message, before touching the
store: the returned table/state is exactly the input one, for every
possible process_message. -/
theorem forbidden_mismatch_before_mutation
    (cu uid : UUID) (h : cu ≠ uid) (tc : TodoCreate) (upd : TodoUpdate)
    (tid nid : UUID) (now : Int) (db : List Todo)
    {σ : Type} (pm : Option UUID → σ → ChatServiceResult × σ) (st : σ)
    (conv : Option String) :
    create_todo cu uid tc nid now db =
      (.err 403 "FORBIDDEN" "You can only create todos for yourself", db) ∧
    list_todos cu uid db =
      .err 403 "FORBIDDEN" "You can only access your own todos" ∧
    get_todo cu uid tid db =
      .err 403 "FORBIDDEN" "You can only access your own todos" ∧
    update_todo cu uid tid upd now db =
      (.err 403 "FORBIDDEN" "You can only update your own todos", db) ∧
    toggle_todo_completion cu uid tid now db =
      (.err 403 "FORBIDDEN" "You can only update your own todos", db) ∧
    delete_todo cu uid tid db =
      (.err 403 "FORBIDDEN" "You can only delete your own todos", db) ∧
    chat pm cu uid conv st =
      (.err 403 "FORBIDDEN"
        "You don\x27t have permission to access this user\x27s chat", st) := by
  refine ⟨?_, ?_, ?_, ?_, ?_, ?_, ?_⟩ <;>
    simp [create_todo, list_todos, get_todo, update_todo,
      toggle_todo_completion, delete_todo, chat, h]

/-- C2 witness: authenticated user 0 requesting a path of user 1. -/
theorem forbidden_mismatch_before_mutation_witness :
    create_todo 0 1 ⟨"t", none⟩ 9 6 sampleDb =
      (.err 403 "FORBIDDEN" "You can only create todos for yourself",
       sampleDb) :=
  (forbidden_mismatch_before_mutation 0 1 (by decide) ⟨"t", none⟩
    ⟨none, none⟩ 3 9 6 sampleDb (fun _ st => (.failure "x", st)) () none).1

/-- C3: verifying a token produced by create_access_token strictly
before its expiry returns the claims with the original subject
(str(user_id)) and email; any token with an expiry claim strictly in
the past, and any tampered token (mac not binding the carried
payload under the configured secret), verifies to None. -/
theorem jwt_issue_verify_roundtrip
    (s : Settings) (uid : UUID) (email : String) (t0 t : Int)
    (h : t < t0 + (s.JWT_EXPIRATION_HOURS : Int) * 3600) :
    verify_token s (create_access_token s uid email t0) t =
      some { sub := some (toString uid), email := some email,
             exp := some (t0 + (s.JWT_EXPIRATION_HOURS : Int) * 3600),
             iat := some t0 } ∧
    (∀ tok : Token, ∀ e : Int, tok.payload.exp = some e → e < t →
      verify_token s tok t = none) ∧
    (∀ tok : Token, tok.mac ≠ (s.JWT_SECRET, tok.payload) →
      verify_token s tok t = none) := by
  refine ⟨?_, ?_, ?_⟩
  · rw [verify_token_issued s uid email t0 t (by omega)]
    rfl
  · exact fun tok e he hlt => verify_token_expired s tok t e he hlt
  · exact fun tok hm => verify_token_bad_mac s tok t hm

/-- C3 witness: issue at time 0 under sampleSettings, verify at
time 100, well before the 86400-second expiry. -/
theorem jwt_issue_verify_roundtrip_witness :
    verify_token sampleSettings (create_access_token sampleSettings 7 "ab" 0) 100 =
      some { sub := some (toString 7), email := some "ab",
             exp := some (0 + (sampleSettings.JWT_EXPIRATION_HOURS : Int) * 3600),
             iat := some 0 } :=
  (jwt_issue_verify_roundtrip sampleSettings 7 "ab" 0 100 (by decide)).1

/-- C4 counterexample: the claim says a token whose expiry equals the
current time is rejected, but verify_token accepts it (jose checks
exp < now strictly) and the middleware (whose own check is also
strict) authenticates the bearer. -/
theorem exp_eq_now_accepted_cex :
    (create_access_token sampleSettings 7 "ab" 0).payload.exp = some 86400 ∧
    verify_token sampleSettings (create_access_token sampleSettings 7 "ab" 0)
        86400 =
      some (create_access_token sampleSettings 7 "ab" 0).payload ∧
    middleware_get_current_user sampleSettings
        (create_access_token sampleSettings 7 "ab" 0) 86400 =
      .ok ("7", "ab") := by
  refine ⟨by decide, by decide, rfl⟩

/-- C4 amended: a token whose expiry claim is strictly in the past is
rejected (verify_token returns None and the middleware responds 401
Unauthorized), while a token whose expiry exactly equals the current
time still verifies successfully. -/
theorem token_expiry_strict_past_rejected
    (s : Settings) (tok : Token) (t e : Int)
    (h1 : tok.payload.exp = some e) (h2 : e < t)
    (uid : UUID) (email : String) (t0 : Int) :
    verify_token s tok t = none ∧
    middleware_get_current_user s tok t = .error (401, INVALID_TOKEN_ERROR) ∧
    verify_token s (create_access_token s uid email t0)
        (t0 + (s.JWT_EXPIRATION_HOURS : Int) * 3600) =
      some (create_access_token s uid email t0).payload := by
  have hv : verify_token s tok t = none := verify_token_expired s tok t e h1 h2
  refine ⟨hv, ?_, verify_token_issued s uid email t0 _ (by omega)⟩
  simp [middleware_get_current_user, hv]

/-- C4 amended witness: a token expired at 200 checked at 300. -/
theorem token_expiry_strict_past_rejected_witness :
    verify_token sampleSettings noEmailToken 300 = none :=
  (token_expiry_strict_past_rejected sampleSettings noEmailToken 300 200
    rfl (by decide) 7 "ab" 0).1

/-- C5 counterexample: the claim says a token with a missing email
claim is rejected by verification, but verify_token returns its
claims and the get_current_user dependency used by the routes (which
never reads the email claim) authenticates the bearer. -/
theorem missing_email_accepted_cex :
    noEmailToken.payload.email = none ∧
    verify_token sampleSettings noEmailToken 100 = some noEmailPayload ∧
    deps_get_current_user sampleSettings noEmailToken 100 [⟨7, "ab"⟩] =
      .ok ⟨7, "ab"⟩ := by
  refine ⟨by decide, by decide, rfl⟩

/-- C5 amended: on a token that verifies, a missing subject claim or a
subject not parseable as a UUID makes the route dependency reject
with 401 Unauthorized (verify_token itself returns the claims
regardless); a missing email claim is rejected only by the
middleware variant of get_current_user, which never authenticates
such a token, and is not checked by the dependency the routes use. -/
theorem subject_claims_checked_by_dependency
    (s : Settings) (tok : Token) (t : Int) (users : List User)
    (p : JwtPayload) (hv : verify_token s tok t = some p) :
    (p.sub = none →
      deps_get_current_user s tok t users =
        .error (401, "Invalid token payload")) ∧
    (∀ str, p.sub = some str → parseUUID str = none →
      deps_get_current_user s tok t users =
        .error (401, "Invalid user ID in token")) ∧
    (p.email = none →
      ∀ r, middleware_get_current_user s tok t ≠ .ok r) := by
  refine ⟨?_, ?_, ?_⟩
  · intro hs
    simp [deps_get_current_user, hv, hs]
  · intro str hs hu
    simp [deps_get_current_user, hv, hs, hu]
  · intro hm r
    simp only [middleware_get_current_user, hv, hm, pyTruthy]
    split <;> simp

/-- C5 amended witness: a correctly signed token without a subject is
rejected by the dependency with the invalid-payload message. -/
theorem subject_claims_checked_by_dependency_witness :
    deps_get_current_user sampleSettings noSubToken 100 [] =
      .error (401, "Invalid token payload") :=
  (subject_claims_checked_by_dependency sampleSettings noSubToken 100 []
    noSubPayload (by decide)).1 rfl

/-- C6: a successful update of an owned todo, in the REST route and in
the chat tool handler, replaces exactly the supplied fields, keeps
every omitted field (and, for the REST route, the completed flag),
keeps id, owner and created_at, and sets updated_at to now; the
table change is exactly the replacement of that row. -/
theorem update_partial_frame
    (db : List Todo) (uid tid : UUID) (todo : Todo) (upd : TodoUpdate)
    (now : Int) (ts : String) (t? d? : Option String) (c? : Option Bool)
    (hfind : findTodo db tid uid = some todo)
    (hts : parseUUID ts = some tid) :
    update_todo uid uid tid upd now db =
      (.ok { todo with
               title := upd.title.getD todo.title,
               description := orKeep upd.description todo.description,
               updated_at := now }
         "Todo updated successfully",
       replaceFirst db (todoPred tid uid)
         { todo with
             title := upd.title.getD todo.title,
             description := orKeep upd.description todo.description,
             updated_at := now }) ∧
    update_todo_handler ⟨db, false⟩ uid ts t? d? c? now =
      (.ok { todo with
               title := t?.getD todo.title,
               description := orKeep d? todo.description,
               completed := c?.getD todo.completed,
               updated_at := now },
       ⟨replaceFirst db (todoPred tid uid)
          { todo with
              title := t?.getD todo.title,
              description := orKeep d? todo.description,
              completed := c?.getD todo.completed,
              updated_at := now }, false⟩) := by
  have hfind' : db.find? (todoPred tid uid) = some todo := hfind
  constructor
  · simp [update_todo, hfind]
  · simp [update_todo_handler, hts, Session.scalarOneOrNone,
      Session.commitDb, hfind']

/-- C6 witness: user 10 updates the title of todo 1 in sampleDb. -/
theorem update_partial_frame_witness :
    update_todo 10 10 1 ⟨some "x", none⟩ 6 sampleDb =
      (.ok { sampleTodoA with
               title := (some "x").getD sampleTodoA.title,
               description := orKeep none sampleTodoA.description,
               updated_at := 6 }
         "Todo updated successfully",
       replaceFirst sampleDb (todoPred 1 10)
         { sampleTodoA with
             title := (some "x").getD sampleTodoA.title,
             description := orKeep none sampleTodoA.description,
             updated_at := 6 }) :=
  (update_partial_frame sampleDb 10 1 sampleTodoA ⟨some "x", none⟩ 6 "1"
    (some "x") none none (by decide) (by decide)).1

/-- C7: toggling completion of an owned todo twice (with a strictly
increasing clock) restores the original completed value, and the
updated timestamp strictly increases on each of the two toggles. -/
theorem toggle_involution_timestamps
    (db : List Todo) (uid tid : UUID) (todo : Todo) (t1 t2 : Int)
    (hfind : findTodo db tid uid = some todo)
    (h1 : todo.updated_at < t1) (h2 : t1 < t2) :
    toggle_todo_completion uid uid tid t1 db =
      (.ok { todo with completed := !todo.completed, updated_at := t1 }
         "Todo completion status updated",
       replaceFirst db (todoPred tid uid)
         { todo with completed := !todo.completed, updated_at := t1 }) ∧
    toggle_todo_completion uid uid tid t2
        (replaceFirst db (todoPred tid uid)
          { todo with completed := !todo.completed, updated_at := t1 }) =
      (.ok { todo with completed := todo.completed, updated_at := t2 }
         "Todo completion status updated",
       replaceFirst
         (replaceFirst db (todoPred tid uid)
           { todo with completed := !todo.completed, updated_at := t1 })
         (todoPred tid uid)
         { todo with completed := todo.completed, updated_at := t2 }) ∧
    ({ todo with completed := todo.completed, updated_at := t2 } : Todo).completed
      = todo.completed ∧
    todo.updated_at
      < ({ todo with completed := !todo.completed, updated_at := t1 } : Todo).updated_at ∧
    ({ todo with completed := !todo.completed, updated_at := t1 } : Todo).updated_at
      < ({ todo with completed := todo.completed, updated_at := t2 } : Todo).updated_at := by
  have hp : todoPred tid uid todo = true := List.find?_some hfind
  have hp1 : todoPred tid uid
      { todo with completed := !todo.completed, updated_at := t1 } = true := by
    simpa [todoPred] using hp
  have hfind1 : findTodo
      (replaceFirst db (todoPred tid uid)
        { todo with completed := !todo.completed, updated_at := t1 }) tid uid =
      some { todo with completed := !todo.completed, updated_at := t1 } :=
    find?_replaceFirst db (todoPred tid uid) _ hp1 (by
      rw [show findTodo db tid uid = db.find? (todoPred tid uid) from rfl]
        at hfind
      simp [hfind])
  refine ⟨?_, ?_, rfl, h1, h2⟩
  · simp [toggle_todo_completion, hfind]
  · simp [toggle_todo_completion, hfind1, Bool.not_not]

/-- C7 witness: user 10 toggles todo 1 of sampleDb at times 6 and 7. -/
theorem toggle_involution_timestamps_witness :
    toggle_todo_completion 10 10 1 6 sampleDb =
      (.ok { sampleTodoA with
               completed := !sampleTodoA.completed, updated_at := 6 }
         "Todo completion status updated",
       replaceFirst sampleDb (todoPred 1 10)
         { sampleTodoA with
             completed := !sampleTodoA.completed, updated_at := 6 }) :=
  (toggle_involution_timestamps sampleDb 10 1 sampleTodoA 6 7
    (by decide) (by decide) (by decide)).1

/-- C8: for the authenticated user, the REST list route and the chat
list handler return exactly that user's todos (membership is
equivalent to being an owned row of the table, with the optional
completed filter for the handler), sorted by creation time
descending; when no todo matches, the result is the empty sequence
and still a success, not an error. -/
theorem list_scoped_filtered_sorted (uid : UUID) (db : List Todo)
    (c? : Option Bool) :
    list_todos uid uid db = .ok (listedTodos uid db)
      "Todos retrieved successfully" ∧
    (∀ t, t ∈ listedTodos uid db ↔ t ∈ db ∧ t.user_id = uid) ∧
    (listedTodos uid db).Pairwise
      (fun a b => b.created_at ≤ a.created_at) ∧
    ((∀ t ∈ db, t.user_id ≠ uid) → listedTodos uid db = []) ∧
    list_todos_handler ⟨db, false⟩ uid c? =
      (.ok (listedTodosFiltered uid c? db), ⟨db, false⟩) ∧
    (∀ t, t ∈ listedTodosFiltered uid c? db ↔
      t ∈ db ∧ t.user_id = uid ∧ ∀ c, c? = some c → t.completed = c) ∧
    (listedTodosFiltered uid c? db).Pairwise
      (fun a b => b.created_at ≤ a.created_at) ∧
    ((∀ t ∈ db, t.user_id ≠ uid) → listedTodosFiltered uid c? db = []) := by
  have hsorted : ∀ l : List Todo,
      (l.mergeSort descByCreated).Pairwise
        (fun a b => b.created_at ≤ a.created_at) := by
    intro l
    have := List.sorted_mergeSort
      (fun a b c => descByCreated_trans a b c)
      (fun a b => descByCreated_total a b) l
    exact this.imp (by simp [descByCreated])
  refine ⟨?_, ?_, hsorted _, ?_, ?_, ?_, hsorted _, ?_⟩
  · simp [list_todos, listedTodos]
  · intro t
    simp [listedTodos, List.mem_mergeSort, List.mem_filter]
  · intro h
    have : db.filter (fun t => t.user_id == uid) = [] := by
      rw [List.filter_eq_nil_iff]
      intro t ht
      simp [h t ht]
    simp [listedTodos, this]
  · simp [list_todos_handler, listedTodosFiltered, Session.execSelect]
  · intro t
    constructor
    · intro ht
      rw [listedTodosFiltered, List.mem_mergeSort, List.mem_filter] at ht
      refine ⟨ht.1, ?_, ?_⟩
      · have := ht.2
        cases c? <;> simp_all
      · intro c hc
        subst hc
        have := ht.2
        simp_all
    · intro ⟨h1, h2, h3⟩
      rw [listedTodosFiltered, List.mem_mergeSort, List.mem_filter]
      refine ⟨h1, ?_⟩
      cases hc : c? with
      | none => simp [h2]
      | some c => simp [h2, h3 c hc]
  · intro h
    have : db.filter (fun t =>
        t.user_id == uid &&
        (match c? with
         | some c => t.completed == c
         | none => true)) = [] := by
      rw [List.filter_eq_nil_iff]
      intro t ht
      simp [h t ht]
    simp [listedTodosFiltered, this]

/-- C8 witness: user 10 lists sampleDb and receives its two todos,
newest first. -/
theorem list_scoped_filtered_sorted_witness :
    list_todos 10 10 sampleDb =
      .ok (listedTodos 10 sampleDb) "Todos retrieved successfully" :=
  (list_scoped_filtered_sorted 10 sampleDb none).1

/-- C9: every chat tool handler yields a value carrying the success
flag rather than propagating a fault: a malformed todo id gives the
invalid-format error, a missing or foreign todo gives the not-found
error, and a raised persistence error gives the failure message, in
every case with success false; and every handler result is either a
success payload or such an error value. -/
theorem tool_handlers_uniform_results (uid : UUID) (now : Int) :
    (∀ sess title d? nid, sess.failing = true →
      create_todo_handler sess uid title d? nid now =
        (.err "Failed to create todo: database failure", sess)) ∧
    (∀ sess c?, sess.failing = true →
      list_todos_handler sess uid c? =
        (.err "Failed to list todos: database failure", sess)) ∧
    (∀ sess ts t? d? c?, parseUUID ts = none →
      update_todo_handler sess uid ts t? d? c? now =
        (.err "Invalid todo ID format", sess)) ∧
    (∀ sess ts, parseUUID ts = none →
      delete_todo_handler sess uid ts = (.err "Invalid todo ID format", sess)) ∧
    (∀ sess ts, parseUUID ts = none →
      get_todo_handler sess uid ts = (.err "Invalid todo ID format", sess)) ∧
    (∀ db ts tid t? d? c?, parseUUID ts = some tid →
      findTodo db tid uid = none →
      update_todo_handler ⟨db, false⟩ uid ts t? d? c? now =
        (.err "Todo not found or you don\x27t have permission to update it",
         ⟨db, false⟩)) ∧
    (∀ db ts tid, parseUUID ts = some tid → findTodo db tid uid = none →
      delete_todo_handler ⟨db, false⟩ uid ts =
        (.err "Todo not found or you don\x27t have permission to delete it",
         ⟨db, false⟩)) ∧
    (∀ db ts tid, parseUUID ts = some tid → findTodo db tid uid = none →
      get_todo_handler ⟨db, false⟩ uid ts =
        (.err "Todo not found or you don\x27t have permission to view it",
         ⟨db, false⟩)) ∧
    (∀ sess ts tid t? d? c?, sess.failing = true → parseUUID ts = some tid →
      update_todo_handler sess uid ts t? d? c? now =
        (.err "Failed to update todo: database failure", sess)) ∧
    (∀ sess ts tid, sess.failing = true → parseUUID ts = some tid →
      delete_todo_handler sess uid ts =
        (.err "Failed to delete todo: database failure", sess)) ∧
    (∀ sess ts tid, sess.failing = true → parseUUID ts = some tid →
      get_todo_handler sess uid ts =
        (.err "Failed to get todo: database failure", sess)) ∧
    (∀ sess title d? nid,
      (create_todo_handler sess uid title d? nid now).1.success = true ∨
      ∃ m, (create_todo_handler sess uid title d? nid now).1 = .err m) ∧
    (∀ sess c?,
      (list_todos_handler sess uid c?).1.success = true ∨
      ∃ m, (list_todos_handler sess uid c?).1 = .err m) ∧
    (∀ sess ts t? d? c?,
      (update_todo_handler sess uid ts t? d? c? now).1.success = true ∨
      ∃ m, (update_todo_handler sess uid ts t? d? c? now).1 = .err m) ∧
    (∀ sess ts,
      (delete_todo_handler sess uid ts).1.success = true ∨
      ∃ m, (delete_todo_handler sess uid ts).1 = .err m) ∧
    (∀ sess ts,
      (get_todo_handler sess uid ts).1.success = true ∨
      ∃ m, (get_todo_handler sess uid ts).1 = .err m) := by
  have hres : ∀ {α : Type} (r : ToolResult α),
      r.success = true ∨ ∃ m, r = .err m := by
    intro α r
    cases r with
    | ok p => exact Or.inl rfl
    | err m => exact Or.inr ⟨m, rfl⟩
  refine ⟨?_, ?_, ?_, ?_, ?_, ?_, ?_, ?_, ?_, ?_, ?_, ?_, ?_, ?_, ?_, ?_⟩
  · intro sess title d? nid hf
    simp [create_todo_handler, Session.commitDb, hf]
  · intro sess c? hf
    simp [list_todos_handler, Session.execSelect, hf]
  · intro sess ts t? d? c? hts
    simp [update_todo_handler, hts]
  · intro sess ts hts
    simp [delete_todo_handler, hts]
  · intro sess ts hts
    simp [get_todo_handler, hts]
  · intro db ts tid t? d? c? hts hfind
    have hfind' : db.find? (todoPred tid uid) = none := hfind
    simp [update_todo_handler, hts, Session.scalarOneOrNone, hfind']
  · intro db ts tid hts hfind
    have hfind' : db.find? (todoPred tid uid) = none := hfind
    simp [delete_todo_handler, hts, Session.scalarOneOrNone, hfind']
  · intro db ts tid hts hfind
    have hfind' : db.find? (todoPred tid uid) = none := hfind
    simp [get_todo_handler, hts, Session.scalarOneOrNone, hfind']
  · intro sess ts tid t? d? c? hf hts
    simp [update_todo_handler, hts, Session.scalarOneOrNone, hf]
  · intro sess ts tid hf hts
    simp [delete_todo_handler, hts, Session.scalarOneOrNone, hf]
  · intro sess ts tid hf hts
    simp [get_todo_handler, hts, Session.scalarOneOrNone, hf]
  · exact fun sess title d? nid => hres _
  · exact fun sess c? => hres _
  · exact fun sess ts t? d? c? => hres _
  · exact fun sess ts => hres _
  · exact fun sess ts => hres _

/-- C9 witness: a failing database makes the create handler report the
error as a success-false value. -/
theorem tool_handlers_uniform_results_witness :
    create_todo_handler ⟨sampleDb, true⟩ 10 "t" none 9 6 =
      (.err "Failed to create todo: database failure", ⟨sampleDb, true⟩) :=
  (tool_handlers_uniform_results 10 6).1 ⟨sampleDb, true⟩ "t" none 9 rfl

set_option maxRecDepth 4000 in
/-- C10 counterexample: the 129-character password longPassword (an
uppercase letter, a lowercase letter, a digit, then 126 letters) is
accepted by the UserCreate field validator, which has no maximum
length, but rejected by is_valid_password, which caps length at 128
— so the two validators do not accept the same set of passwords. -/
theorem password_validators_disagree_cex :
    validate_password longPassword = .ok longPassword ∧
    acceptsPassword longPassword = true ∧
    is_valid_password longPassword = false ∧
    longPassword.length = 129 := by
  refine ⟨rfl, rfl, by decide, by decide⟩

/-- C10 amended: the two password validators agree on every password
of length at most 128 (the field validator accepts exactly when
is_valid_password does); they can differ only beyond that length,
which only is_valid_password bounds. -/
theorem password_validators_agree_bounded (p : String)
    (h : p.length ≤ 128) :
    acceptsPassword p = is_valid_password p := by
  have h128 : ¬ (128 < p.length) := by omega
  by_cases h8 : p.length < 8 <;>
  by_cases hu : pyAnyUpper p <;>
  by_cases hl : pyAnyLower p <;>
  by_cases hd : pyAnyDigit p <;>
  simp [acceptsPassword, validate_password, is_valid_password,
    h8, hu, hl, hd, h128]

/-- C10 amended witness: both validators accept Passw0rd1. -/
theorem password_validators_agree_bounded_witness :
    acceptsPassword "Passw0rd1" = is_valid_password "Passw0rd1" :=
  password_validators_agree_bounded "Passw0rd1" (by decide)

end TodoApp
